import Mathlib

/-!
Shallow embedding of the poster tiling engine (brainwagon/poster).

The core arithmetic lives in `poster.py`:
  * `calculate_pages_needed` (lines 61-78) converts inch measurements to
    pixels with Python `int()` truncation and computes the grid as
    `cols = math.ceil((poster_px_w - overlap_px) / (sheet_px_w - overlap_px))`
    (exact rational division; Python raises ZeroDivisionError when the
    denominator is zero, modelled as `none`);
  * `split_image_to_letter_overlap` (lines 155-184) computes each tile's
    source crop box and the vertical placement of the segment on the page;
  * `main` (lines 278-308) decides rotation by planning both orientations
    and then calls the renderer.
`poster_split.py` (lines 19-24) computes the same grid with Python floor
division plus a remainder check.
-/

namespace Poster

/-- Python `int()`: truncation toward zero of a rational. -/
def pyInt (q : ℚ) : ℤ := q.num.tdiv q.den

/-- Pixel-level core of `calculate_pages_needed` (poster.py lines 74-76):
`cols = ceil((poster_px_w - overlap_px) / (sheet_px_w - overlap_px))` and
`rows = ceil((poster_px_h - overlap_px) / (sheet_px_h - overlap_px))`, the
division being exact rational division.  Python raises ZeroDivisionError when
a denominator is zero; that case is modelled as `none`. -/
def calculate_pages_needed_px (poster_px_w poster_px_h sheet_px_w sheet_px_h overlap_px : ℤ) :
    Option (ℤ × ℤ) :=
  if sheet_px_w - overlap_px = 0 ∨ sheet_px_h - overlap_px = 0 then none
  else some (⌈((poster_px_w - overlap_px : ℤ) : ℚ) / ((sheet_px_w - overlap_px : ℤ) : ℚ)⌉,
             ⌈((poster_px_h - overlap_px : ℤ) : ℚ) / ((sheet_px_h - overlap_px : ℤ) : ℚ)⌉)

/-- Function `calculate_pages_needed` (poster.py lines 61-78): printable letter area is
8.5in x 11in minus twice the margins; all conversions to pixels go through
Python `int()` truncation. -/
def calculate_pages_needed (poster_width poster_height dpi overlap_in margin_x margin_y : ℚ) :
    Option (ℤ × ℤ) :=
  let letter_w : ℚ := 8.5 - 2 * margin_x
  let letter_h : ℚ := 11 - 2 * margin_y
  let overlap_px := pyInt (overlap_in * dpi)
  let poster_px_w := pyInt (poster_width * dpi)
  let poster_px_h := pyInt (poster_height * dpi)
  let sheet_px_w := pyInt (letter_w * dpi)
  let sheet_px_h := pyInt (letter_h * dpi)
  calculate_pages_needed_px poster_px_w poster_px_h sheet_px_w sheet_px_h overlap_px

/-- Function `main` (poster.py lines 276-286): when rotation is not disabled, plan both
orientations (the rotated call swaps the poster dimensions and the margins) and
swap the poster dimensions when the rotated grid has strictly fewer pages.
Returns the effective poster dimensions and the `rotated` flag; `none` models a
ZeroDivisionError escaping from `calculate_pages_needed`. -/
def optimize_orientation (no_rotate : Bool)
    (poster_width poster_height dpi overlap_in margin_x margin_y : ℚ) :
    Option ((ℚ × ℚ) × Bool) :=
  if no_rotate then some ((poster_width, poster_height), false)
  else
    match calculate_pages_needed poster_width poster_height dpi overlap_in margin_x margin_y,
          calculate_pages_needed poster_height poster_width dpi overlap_in margin_y margin_x with
    | some (cols, rows), some (rotated_cols, rotated_rows) =>
      if rotated_cols * rotated_rows < cols * rows then
        some ((poster_height, poster_width), true)
      else
        some ((poster_width, poster_height), false)
    | _, _ => none

/-- Function `main` (poster.py lines 296-308) followed by `split_image_to_letter_overlap`
(line 149): the rendering pass replans the grid from the effective (possibly
swapped) poster dimensions together with the ORIGINAL margins `margin_x`,
`margin_y` — `main` swaps the poster dimensions but not the margins. -/
def rendering_grid (no_rotate : Bool)
    (poster_width poster_height dpi overlap_in margin_x margin_y : ℚ) :
    Option (ℤ × ℤ) :=
  match optimize_orientation no_rotate poster_width poster_height dpi overlap_in margin_x margin_y with
  | some ((w, h), _) => calculate_pages_needed w h dpi overlap_in margin_x margin_y
  | none => none

/-- Function `split_image_to_letter_overlap` in poster_split.py (lines 19-24): the same
column count computed with Python floor division `//` plus a remainder check
with Python `%` (both carry the divisor's sign, i.e. `Int.fdiv`/`Int.fmod`). -/
def split_cols (poster_px sheet_px overlap_px : ℤ) : ℤ :=
  let cols := (poster_px - overlap_px).fdiv (sheet_px - overlap_px)
  if (poster_px - overlap_px).fmod (sheet_px - overlap_px) ≠ 0 then cols + 1 else cols

/-- The source crop box of one tile, in poster pixel coordinates. -/
structure SrcBox where
  left : ℤ
  upper : ℤ
  right : ℤ
  lower : ℤ
deriving Repr, DecidableEq

/-- Function `split_image_to_letter_overlap` (poster.py lines 155-158): the crop box of
grid cell `(row, col)`, clipped to the poster bounds. -/
def src_box (row col sheet_px_w sheet_px_h overlap_px poster_px_w poster_px_h : ℤ) : SrcBox :=
  let left := col * (sheet_px_w - overlap_px)
  let upper := row * (sheet_px_h - overlap_px)
  let right := min (left + sheet_px_w) poster_px_w
  let lower := min (upper + sheet_px_h) poster_px_h
  ⟨left, upper, right, lower⟩

/-- Membership of a pixel in a crop box (boxes are half-open on the right and
bottom, as PIL crop boxes are). -/
def in_src_box (x y : ℤ) (b : SrcBox) : Prop :=
  b.left ≤ x ∧ x < b.right ∧ b.upper ≤ y ∧ y < b.lower

/-- Function `split_image_to_letter_overlap` (poster.py line 176): the blank vertical
space, in inches, left on the page by a segment of pixel height `h` on a sheet
of pixel height `sheet_px_h`. -/
def segment_offset (sheet_px_h h letter_h : ℚ) : ℚ :=
  ((sheet_px_h - h) / sheet_px_h) * letter_h

/-- Function `split_image_to_letter_overlap` (poster.py lines 179-184): the y coordinate
in points at which `drawInlineImage` places the segment: the last row is pushed
up by `offset`, every other row sits at the bottom margin. -/
def placed_y (row rows : ℤ) (margin_y offset : ℚ) : ℚ :=
  if row = rows - 1 then (margin_y + offset) * 72 else margin_y * 72

/-- Ceiling of a rational expressed through the floor of its negation
(used to evaluate ceilings numerically). -/
theorem ceil_via_floor (a : ℚ) : ⌈a⌉ = -⌊-a⌋ := by
  rw [Int.floor_neg, neg_neg]

/-- Applying `pyInt` to an integer is the identity. -/
theorem pyInt_intCast (n : ℤ) : pyInt (n : ℚ) = n := by
  simp [pyInt]

/-- Evaluation helper: `pyInt` of a rational that is provably an integer. -/
theorem pyInt_eval (q : ℚ) (n : ℤ) (h : q = (n : ℚ)) : pyInt q = n := by
  rw [h, pyInt_intCast]

/-- For a positive divisor, the rational ceiling of `x / a` is the least
integer `m` with `x ≤ m * a`. -/
theorem ceil_div_minimal (x a : ℤ) (ha : 0 < a) :
    x ≤ ⌈(x : ℚ) / (a : ℚ)⌉ * a ∧ ∀ m : ℤ, x ≤ m * a → ⌈(x : ℚ) / (a : ℚ)⌉ ≤ m := by
  have haQ : (0 : ℚ) < (a : ℚ) := by exact_mod_cast ha
  constructor
  · have h1 : (x : ℚ) / (a : ℚ) ≤ (⌈(x : ℚ) / (a : ℚ)⌉ : ℚ) := Int.le_ceil _
    have h2 : (x : ℚ) ≤ (⌈(x : ℚ) / (a : ℚ)⌉ : ℚ) * (a : ℚ) := by
      rw [div_le_iff₀ haQ] at h1
      exact h1
    exact_mod_cast h2
  · intro m hm
    have hmQ : (x : ℚ) ≤ (m : ℚ) * (a : ℚ) := by exact_mod_cast hm
    have : (x : ℚ) / (a : ℚ) ≤ (m : ℚ) := by
      rw [div_le_iff₀ haQ]
      exact hmQ
    exact Int.ceil_le.mpr this

/-- For a positive divisor, the rational ceiling of `x / a` equals floor
division plus one exactly when the (floor-convention) remainder is nonzero. -/
theorem ceil_div_eq_fdiv (x a : ℤ) (ha : 0 < a) :
    ⌈((x : ℤ) : ℚ) / ((a : ℤ) : ℚ)⌉ =
      if x.fmod a ≠ 0 then x.fdiv a + 1 else x.fdiv a := by
  have hfd : x.fdiv a = x / a := Int.fdiv_eq_ediv x ha.le
  have hfm : x.fmod a = x % a := Int.fmod_eq_emod x ha.le
  have hdm : a * (x / a) + x % a = x := Int.ediv_add_emod x a
  have haQ : (0 : ℚ) < (a : ℚ) := by exact_mod_cast ha
  rw [hfd, hfm]
  by_cases h : x % a = 0
  · rw [if_neg (by simpa using h)]
    have hx : x = x / a * a := by
      have hcomm : x / a * a = a * (x / a) := mul_comm _ _
      linarith
    have key : (x : ℚ) / (a : ℚ) = ((x / a : ℤ) : ℚ) := by
      rw [div_eq_iff (ne_of_gt haQ)]
      exact_mod_cast hx
    rw [key, Int.ceil_intCast]
  · rw [if_pos h]
    have h0 : 0 ≤ x % a := Int.emod_nonneg x (by omega)
    have hr : 0 < x % a := lt_of_le_of_ne h0 (Ne.symm h)
    have h1 : x % a < a := Int.emod_lt_of_pos x ha
    rw [Int.ceil_eq_iff]
    constructor
    · have hcomm : x / a * a = a * (x / a) := mul_comm _ _
      have hlt : x / a * a < x := by linarith
      have hQ : ((x / a : ℤ) : ℚ) < (x : ℚ) / (a : ℚ) := by
        rw [lt_div_iff₀ haQ]
        exact_mod_cast hlt
      push_cast
      linarith
    · have hexp : (x / a + 1) * a = a * (x / a) + a := by ring
      have hle : x ≤ (x / a + 1) * a := by linarith
      have hQ : (x : ℚ) / (a : ℚ) ≤ ((x / a + 1 : ℤ) : ℚ) := by
        rw [div_le_iff₀ haQ]
        exact_mod_cast hle
      exact hQ

/-- Evaluation helper: the plan of spec scenario A (20in x 30in poster at
300 dpi, 0.5in overlap, printable sheet 8in x 10.5in). -/
theorem plan_px_scenario_a :
    calculate_pages_needed_px 6000 9000 2400 3150 150 = some (3, 3) := by
  rw [calculate_pages_needed_px]
  norm_num [ceil_via_floor]

/-- C1: for positive poster pixel dimensions and printable pixel dimensions
strictly greater than `overlap_px ≥ 0`, the grid planner returns the minimal
column count `c` with `c*(printable_px_w − overlap_px) + overlap_px ≥
poster_px_w`, and symmetrically for rows. -/
theorem grid_planner_minimal (pw ph sw sh o : ℤ)
    (hpw : 0 < pw) (hph : 0 < ph) (ho : 0 ≤ o) (hsw : o < sw) (hsh : o < sh) :
    ∃ c r : ℤ, calculate_pages_needed_px pw ph sw sh o = some (c, r)
      ∧ (pw ≤ c * (sw - o) + o ∧ ∀ m : ℤ, pw ≤ m * (sw - o) + o → c ≤ m)
      ∧ (ph ≤ r * (sh - o) + o ∧ ∀ m : ℤ, ph ≤ m * (sh - o) + o → r ≤ m) := by
  refine ⟨⌈((pw - o : ℤ) : ℚ) / ((sw - o : ℤ) : ℚ)⌉,
          ⌈((ph - o : ℤ) : ℚ) / ((sh - o : ℤ) : ℚ)⌉, ?_, ⟨?_, ?_⟩, ⟨?_, ?_⟩⟩
  · rw [calculate_pages_needed_px, if_neg (by push_neg; omega)]
  · have h := (ceil_div_minimal (pw - o) (sw - o) (by omega)).1
    linarith
  · intro m hm
    exact (ceil_div_minimal (pw - o) (sw - o) (by omega)).2 m (by linarith)
  · have h := (ceil_div_minimal (ph - o) (sh - o) (by omega)).1
    linarith
  · intro m hm
    exact (ceil_div_minimal (ph - o) (sh - o) (by omega)).2 m (by linarith)

/-- C1 witness: scenario A, poster 6000x9000 px, sheet 2400x3150 px, 150 px
overlap. -/
theorem grid_planner_minimal_witness :
    ∃ c r : ℤ, calculate_pages_needed_px 6000 9000 2400 3150 150 = some (c, r)
      ∧ (6000 ≤ c * (2400 - 150) + 150 ∧ ∀ m : ℤ, 6000 ≤ m * (2400 - 150) + 150 → c ≤ m)
      ∧ (9000 ≤ r * (3150 - 150) + 150 ∧ ∀ m : ℤ, 9000 ≤ m * (3150 - 150) + 150 → r ≤ m) :=
  grid_planner_minimal 6000 9000 2400 3150 150 (by decide) (by decide) (by decide)
    (by decide) (by decide)

/-- C2 counterexample: a poster pixel width (100) equal to the overlap (100)
with printable sheet 200x300 px yields `cols = 0`, which is less than 1: the
ceiling results are not floored at a minimum of 1. -/
theorem grid_planner_cols_below_one :
    calculate_pages_needed_px 100 9000 200 300 100 = some (0, 45) ∧ (0 : ℤ) < 1 := by
  refine ⟨?_, by decide⟩
  rw [calculate_pages_needed_px]
  norm_num [ceil_via_floor]

/-- C2 amended: the returned `cols` and `rows` are each at least 1 whenever the
poster pixel dimensions strictly exceed `overlap_px` (there is no flooring at 1
in the code; a poster dimension ≤ overlap yields a count ≤ 0). -/
theorem grid_planner_at_least_one (pw ph sw sh o : ℤ)
    (hpw : o < pw) (hph : o < ph) (hsw : o < sw) (hsh : o < sh) :
    ∃ c r : ℤ, calculate_pages_needed_px pw ph sw sh o = some (c, r) ∧ 1 ≤ c ∧ 1 ≤ r := by
  refine ⟨⌈((pw - o : ℤ) : ℚ) / ((sw - o : ℤ) : ℚ)⌉,
          ⌈((ph - o : ℤ) : ℚ) / ((sh - o : ℤ) : ℚ)⌉, ?_, ?_, ?_⟩
  · rw [calculate_pages_needed_px, if_neg (by push_neg; omega)]
  · have : (0 : ℤ) < ⌈((pw - o : ℤ) : ℚ) / ((sw - o : ℤ) : ℚ)⌉ := by
      rw [Int.ceil_pos]
      apply div_pos <;> exact_mod_cast (by omega : (0 : ℤ) < _)
    omega
  · have : (0 : ℤ) < ⌈((ph - o : ℤ) : ℚ) / ((sh - o : ℤ) : ℚ)⌉ := by
      rw [Int.ceil_pos]
      apply div_pos <;> exact_mod_cast (by omega : (0 : ℤ) < _)
    omega

/-- C2 amended witness: poster 6000x9000 px, sheet 2400x3150 px, 150 px
overlap. -/
theorem grid_planner_at_least_one_witness :
    ∃ c r : ℤ, calculate_pages_needed_px 6000 9000 2400 3150 150 = some (c, r)
      ∧ 1 ≤ c ∧ 1 ≤ r :=
  grid_planner_at_least_one 6000 9000 2400 3150 150 (by decide) (by decide) (by decide)
    (by decide)

/-- C3 counterexample: with overlap 500 px strictly greater than both printable
dimensions (200 px and 300 px), the planner does not fail at all — it returns a
grid plan (with negative counts) instead of raising any error. -/
theorem planner_returns_plan_when_overlap_exceeds :
    calculate_pages_needed_px 6000 9000 200 300 500 = some (-18, -42) := by
  rw [calculate_pages_needed_px]
  norm_num [ceil_via_floor]

/-- C3 amended: the planner performs no layout validation: whenever the overlap
differs from both printable dimensions — in particular whenever it strictly
exceeds them — it returns a grid plan; only when the overlap exactly equals a
printable dimension does the run die, with a ZeroDivisionError (modelled as
`none`), not with an `InvalidLayout` error. -/
theorem planner_overlap_no_invalid_layout (pw ph sw sh o : ℤ) :
    ((sw ≠ o → sh ≠ o → (calculate_pages_needed_px pw ph sw sh o).isSome = true)
    ∧ ((sw = o ∨ sh = o) → calculate_pages_needed_px pw ph sw sh o = none)) := by
  constructor
  · intro h1 h2
    rw [calculate_pages_needed_px, if_neg (by push_neg; omega)]
    rfl
  · intro h
    rw [calculate_pages_needed_px, if_pos (by omega)]

/-- C3 amended witness: overlap 500 px against printable 200x300 px returns a
plan; overlap 200 px against printable width 200 px dies with a
ZeroDivisionError. -/
theorem planner_overlap_no_invalid_layout_witness :
    (calculate_pages_needed_px 6000 9000 200 300 500).isSome = true
    ∧ calculate_pages_needed_px 6000 9000 200 300 200 = none :=
  ⟨(planner_overlap_no_invalid_layout 6000 9000 200 300 500).1 (by decide) (by decide),
   (planner_overlap_no_invalid_layout 6000 9000 200 300 200).2 (by decide)⟩

/-- C4: for positive poster pixel dimensions and printable dimensions strictly
greater than `overlap_px ≥ 0`, the ceiling-division planner of poster.py and
the floor-division-plus-remainder-check computation of poster_split.py return
identical column and row counts. -/
theorem ceil_equals_divmod (pw ph sw sh o : ℤ)
    (hpw : 0 < pw) (hph : 0 < ph) (ho : 0 ≤ o) (hsw : o < sw) (hsh : o < sh) :
    calculate_pages_needed_px pw ph sw sh o = some (split_cols pw sw o, split_cols ph sh o) := by
  rw [calculate_pages_needed_px, if_neg (by push_neg; omega)]
  rw [split_cols, split_cols]
  rw [ceil_div_eq_fdiv (pw - o) (sw - o) (by omega),
      ceil_div_eq_fdiv (ph - o) (sh - o) (by omega)]

/-- C4 witness: scenario A pixel values. -/
theorem ceil_equals_divmod_witness :
    calculate_pages_needed_px 6000 9000 2400 3150 150
      = some (split_cols 6000 2400 150, split_cols 9000 3150 150) :=
  ceil_equals_divmod 6000 9000 2400 3150 150 (by decide) (by decide) (by decide)
    (by decide) (by decide)

/-- Evaluation helper: 20in x 30in poster at 300 dpi, 0.5in overlap, 0.25in
margins. -/
theorem plan_in_20_30 :
    calculate_pages_needed 20 30 300 (1/2) (1/4) (1/4) = some (3, 3) := by
  norm_num [calculate_pages_needed, pyInt, calculate_pages_needed_px, ceil_via_floor,
    Rat.num_ofNat, Rat.den_ofNat, Int.tdiv_one]

/-- Evaluation helper: the swapped orientation of `plan_in_20_30`. -/
theorem plan_in_30_20 :
    calculate_pages_needed 30 20 300 (1/2) (1/4) (1/4) = some (4, 2) := by
  norm_num [calculate_pages_needed, pyInt, calculate_pages_needed_px, ceil_via_floor,
    Rat.num_ofNat, Rat.den_ofNat, Int.tdiv_one]

/-- C5: with rotation enabled the optimizer rotates exactly when the rotated
candidate's `cols*rows` is strictly smaller (ties keep the given orientation),
with rotation disabled it never rotates, and the chosen orientation's page
count never exceeds the alternative's. -/
theorem orientation_optimizer_spec (pw ph dpi ov mx my : ℚ) (c r rc rr : ℤ)
    (h1 : calculate_pages_needed pw ph dpi ov mx my = some (c, r))
    (h2 : calculate_pages_needed ph pw dpi ov my mx = some (rc, rr)) :
    optimize_orientation false pw ph dpi ov mx my
        = some (if rc * rr < c * r then ((ph, pw), true) else ((pw, ph), false))
    ∧ optimize_orientation true pw ph dpi ov mx my = some ((pw, ph), false)
    ∧ (if rc * rr < c * r then rc * rr else c * r) ≤ c * r
    ∧ (if rc * rr < c * r then rc * rr else c * r) ≤ rc * rr := by
  refine ⟨?_, rfl, ?_, ?_⟩
  · simp only [optimize_orientation, Bool.false_eq_true, if_false, h1, h2]
    split_ifs <;> rfl
  · split_ifs with hlt
    · exact le_of_lt hlt
    · exact le_refl _
  · split_ifs with hlt
    · exact le_refl _
    · exact not_lt.mp hlt

/-- C5 witness: 20in x 30in poster at 300 dpi, 0.5in overlap, 0.25in margins:
the rotated candidate (4x2 = 8 pages) beats the given orientation
(3x3 = 9 pages). -/
theorem orientation_optimizer_spec_witness :
    optimize_orientation false 20 30 300 (1/2) (1/4) (1/4)
        = some (if (4 * 2 : ℤ) < 3 * 3 then (((30 : ℚ), (20 : ℚ)), true)
                else ((20, 30), false))
    ∧ optimize_orientation true 20 30 300 (1/2) (1/4) (1/4) = some ((20, 30), false)
    ∧ (if (4 * 2 : ℤ) < 3 * 3 then (4 * 2 : ℤ) else 3 * 3) ≤ 3 * 3
    ∧ (if (4 * 2 : ℤ) < 3 * 3 then (4 * 2 : ℤ) else 3 * 3) ≤ 4 * 2 :=
  orientation_optimizer_spec 20 30 300 (1/2) (1/4) (1/4) 3 3 4 2 plan_in_20_30 plan_in_30_20

/-- Unfolding helper for `src_box`. -/
theorem src_box_def (row col sw sh o pw ph : ℤ) :
    src_box row col sw sh o pw ph
      = ⟨col * (sw - o), row * (sh - o), min (col * (sw - o) + sw) pw,
         min (row * (sh - o) + sh) ph⟩ := rfl

/-- C6: the crop box of cell `(row, col)` is `left = col*(sheet_px_w −
overlap_px)`, `top = row*(sheet_px_h − overlap_px)`, `right = min(left +
sheet_px_w, poster_px_w)`, `bottom = min(top + sheet_px_h, poster_px_h)`; a
clipped box on the last row or column is returned like any other, never as an
error. -/
theorem src_box_formula (row col sw sh o pw ph : ℤ) :
    (src_box row col sw sh o pw ph).left = col * (sw - o)
    ∧ (src_box row col sw sh o pw ph).upper = row * (sh - o)
    ∧ (src_box row col sw sh o pw ph).right
        = min ((src_box row col sw sh o pw ph).left + sw) pw
    ∧ (src_box row col sw sh o pw ph).lower
        = min ((src_box row col sw sh o pw ph).upper + sh) ph :=
  ⟨rfl, rfl, rfl, rfl⟩

/-- Two consecutive tile intervals of the planned grid overlap by exactly the
overlap width whenever the second one is still inside the grid. -/
theorem adjacent_intervals_overlap (p s o c : ℤ) (ho : 0 ≤ o) (hs : o < s)
    (hc2 : c + 1 ≤ ⌈((p - o : ℤ) : ℚ) / ((s - o : ℤ) : ℚ)⌉ - 1) :
    min (min (c * (s - o) + s) p) (min ((c + 1) * (s - o) + s) p)
      - max (c * (s - o)) ((c + 1) * (s - o)) = o := by
  have ha : (0 : ℤ) < s - o := by omega
  have haQ : (0 : ℚ) < ((s - o : ℤ) : ℚ) := by exact_mod_cast ha
  have hceil : (⌈((p - o : ℤ) : ℚ) / ((s - o : ℤ) : ℚ)⌉ : ℚ)
      < ((p - o : ℤ) : ℚ) / ((s - o : ℤ) : ℚ) + 1 := Int.ceil_lt_add_one _
  have hc2Q : ((c + 1 : ℤ) : ℚ) ≤ (⌈((p - o : ℤ) : ℚ) / ((s - o : ℤ) : ℚ)⌉ : ℚ) - 1 := by
    have h1 : ((c + 1 : ℤ) : ℚ) ≤ ((⌈((p - o : ℤ) : ℚ) / ((s - o : ℤ) : ℚ)⌉ - 1 : ℤ) : ℚ) :=
      Int.cast_le.mpr hc2
    rw [Int.cast_sub, Int.cast_one] at h1
    exact h1
  have hdivQ : ((c + 1 : ℤ) : ℚ) < ((p - o : ℤ) : ℚ) / ((s - o : ℤ) : ℚ) := by linarith
  have hmul : ((c + 1 : ℤ) : ℚ) * ((s - o : ℤ) : ℚ) < ((p - o : ℤ) : ℚ) :=
    (lt_div_iff₀ haQ).mp hdivQ
  have hkey : (c + 1) * (s - o) < p - o := by exact_mod_cast hmul
  have hexp : (c + 1) * (s - o) = c * (s - o) + (s - o) := by ring
  have hfull : c * (s - o) + s < p := by linarith
  have hmono : c * (s - o) + s ≤ (c + 1) * (s - o) + s := by linarith
  rw [min_eq_left hfull.le, min_eq_left (le_min hmono hfull.le),
      max_eq_right (by linarith : c * (s - o) ≤ (c + 1) * (s - o))]
  ring

/-- C7: horizontally adjacent cells of the planned grid have crop boxes that
overlap horizontally by exactly `overlap_px` pixels, and symmetrically for
vertically adjacent cells. -/
theorem adjacent_tiles_overlap (pw ph sw sh o cols rows r c : ℤ)
    (ho : 0 ≤ o) (hsw : o < sw) (hsh : o < sh)
    (hplan : calculate_pages_needed_px pw ph sw sh o = some (cols, rows)) :
    (c + 1 ≤ cols - 1 →
      min (src_box r c sw sh o pw ph).right (src_box r (c + 1) sw sh o pw ph).right
        - max (src_box r c sw sh o pw ph).left (src_box r (c + 1) sw sh o pw ph).left = o)
    ∧ (r + 1 ≤ rows - 1 →
      min (src_box r c sw sh o pw ph).lower (src_box (r + 1) c sw sh o pw ph).lower
        - max (src_box r c sw sh o pw ph).upper (src_box (r + 1) c sw sh o pw ph).upper = o) := by
  rw [calculate_pages_needed_px, if_neg (by push_neg; omega)] at hplan
  simp only [Option.some.injEq, Prod.mk.injEq] at hplan
  obtain ⟨hcols, hrows⟩ := hplan
  constructor
  · intro hpair
    simp only [src_box_def]
    exact adjacent_intervals_overlap pw sw o c ho hsw (by rw [hcols]; exact hpair)
  · intro hpair
    simp only [src_box_def]
    exact adjacent_intervals_overlap ph sh o r ho hsh (by rw [hrows]; exact hpair)

/-- C7 witness: scenario A pixel values, cells (0,0)-(0,1) overlap by exactly
150 px. -/
theorem adjacent_tiles_overlap_witness :
    min (src_box 0 0 2400 3150 150 6000 9000).right (src_box 0 1 2400 3150 150 6000 9000).right
      - max (src_box 0 0 2400 3150 150 6000 9000).left (src_box 0 1 2400 3150 150 6000 9000).left
      = 150 :=
  (adjacent_tiles_overlap 6000 9000 2400 3150 150 3 3 0 0 (by decide) (by decide) (by decide)
    plan_px_scenario_a).1 (by decide)

/-- Every pixel offset of the poster lies inside one of the planned tile
intervals. -/
theorem interval_cover (p s o x : ℤ) (ho : 0 ≤ o) (hs : o < s) (hp : o < p)
    (hx0 : 0 ≤ x) (hxp : x < p) :
    ∃ c : ℤ, 0 ≤ c ∧ c < ⌈((p - o : ℤ) : ℚ) / ((s - o : ℤ) : ℚ)⌉
      ∧ c * (s - o) ≤ x ∧ x < min (c * (s - o) + s) p := by
  have ha : (0 : ℤ) < s - o := by omega
  set n := ⌈((p - o : ℤ) : ℚ) / ((s - o : ℤ) : ℚ)⌉ with hn
  have hn1 : 1 ≤ n := by
    have hpos : (0 : ℤ) < n := by
      rw [hn, Int.ceil_pos]
      apply div_pos <;> exact_mod_cast (by omega : (0 : ℤ) < _)
    omega
  have hcover : p - o ≤ n * (s - o) := (ceil_div_minimal (p - o) (s - o) ha).1
  set d := x / (s - o) with hd
  have hd0 : 0 ≤ d := Int.ediv_nonneg hx0 ha.le
  have hdm : (s - o) * d + x % (s - o) = x := Int.ediv_add_emod x (s - o)
  have hr0 : 0 ≤ x % (s - o) := Int.emod_nonneg x (by omega)
  have hr1 : x % (s - o) < s - o := Int.emod_lt_of_pos x ha
  have hcm : d * (s - o) = (s - o) * d := mul_comm _ _
  refine ⟨min d (n - 1), le_min hd0 (by omega),
          lt_of_le_of_lt (min_le_right _ _) (by omega), ?_, ?_⟩
  · rcases min_cases d (n - 1) with ⟨hmin, hle⟩ | ⟨hmin, hle⟩
    · rw [hmin]
      linarith
    · rw [hmin]
      have hmul : (n - 1) * (s - o) ≤ d * (s - o) :=
        mul_le_mul_of_nonneg_right hle.le ha.le
      linarith
  · rw [lt_min_iff]
    refine ⟨?_, hxp⟩
    rcases min_cases d (n - 1) with ⟨hmin, hle⟩ | ⟨hmin, hle⟩
    · rw [hmin]
      linarith
    · rw [hmin]
      have hexp : n * (s - o) = (n - 1) * (s - o) + (s - o) := by ring
      linarith

/-- C8 counterexample: a 50x50 px poster with 100 px overlap on a 200x200 px
printable sheet is a configuration the claim ranges over (poster positive,
printable > overlap), yet the plan has zero cells, so the pixel (0,0) of the
poster is covered by no crop box. -/
theorem coverage_gap_small_poster :
    calculate_pages_needed_px 50 50 200 200 100 = some (0, 0)
    ∧ ¬ ∃ r c : ℤ, 0 ≤ r ∧ r < 0 ∧ 0 ≤ c ∧ c < 0
        ∧ in_src_box 0 0 (src_box r c 200 200 100 50 50) := by
  constructor
  · rw [calculate_pages_needed_px]
    norm_num [ceil_via_floor]
  · rintro ⟨r, c, hr0, hr1, -⟩
    omega

/-- C8 amended: when additionally each poster pixel dimension strictly exceeds
the overlap, the union of all crop boxes of the plan exactly covers
`[0, poster_px_w) x [0, poster_px_h)`: every poster pixel lies in some cell's
box, and every cell's box lies inside the poster rectangle. -/
theorem coverage_exact (pw ph sw sh o cols rows : ℤ)
    (ho : 0 ≤ o) (hsw : o < sw) (hsh : o < sh) (hpw : o < pw) (hph : o < ph)
    (hplan : calculate_pages_needed_px pw ph sw sh o = some (cols, rows)) :
    (∀ x y : ℤ, 0 ≤ x → x < pw → 0 ≤ y → y < ph →
      ∃ r c : ℤ, 0 ≤ r ∧ r < rows ∧ 0 ≤ c ∧ c < cols
        ∧ in_src_box x y (src_box r c sw sh o pw ph))
    ∧ (∀ r c x y : ℤ, 0 ≤ r → 0 ≤ c →
        in_src_box x y (src_box r c sw sh o pw ph) → 0 ≤ x ∧ x < pw ∧ 0 ≤ y ∧ y < ph) := by
  rw [calculate_pages_needed_px, if_neg (by push_neg; omega)] at hplan
  simp only [Option.some.injEq, Prod.mk.injEq] at hplan
  obtain ⟨hcols, hrows⟩ := hplan
  constructor
  · intro x y hx0 hxp hy0 hyp
    obtain ⟨c, hc0, hcn, hcl, hcr⟩ := interval_cover pw sw o x ho hsw hpw hx0 hxp
    obtain ⟨r, hr0, hrn, hrl, hrr⟩ := interval_cover ph sh o y ho hsh hph hy0 hyp
    refine ⟨r, c, hr0, ?_, hc0, ?_, ?_⟩
    · rw [← hrows]; exact hrn
    · rw [← hcols]; exact hcn
    · simp only [in_src_box, src_box_def]
      exact ⟨hcl, hcr, hrl, hrr⟩
  · intro r c x y hr0 hc0 hbox
    simp only [in_src_box, src_box_def] at hbox
    obtain ⟨h1, h2, h3, h4⟩ := hbox
    have hcx : 0 ≤ c * (sw - o) := mul_nonneg hc0 (by omega)
    have hry : 0 ≤ r * (sh - o) := mul_nonneg hr0 (by omega)
    exact ⟨by linarith, lt_of_lt_of_le h2 (min_le_right _ _),
           by linarith, lt_of_lt_of_le h4 (min_le_right _ _)⟩

/-- C8 amended witness: scenario A pixel values, the pixel (2500, 4000) is
covered, and every box of cell (0,0) stays inside the poster. -/
theorem coverage_exact_witness :
    (∃ r c : ℤ, 0 ≤ r ∧ r < 3 ∧ 0 ≤ c ∧ c < 3
      ∧ in_src_box 2500 4000 (src_box r c 2400 3150 150 6000 9000)) :=
  (coverage_exact 6000 9000 2400 3150 150 3 3 (by decide) (by decide) (by decide)
    (by decide) (by decide) plan_px_scenario_a).1 2500 4000 (by decide) (by decide)
    (by decide) (by decide)

/-- C9: every cell in a non-last row places the image at the bottom margin
(`y = margin_y` in points `margin_y * 72`); a cell in the last row is placed at
`y = margin_y + (1 − segment_px_h / sheet_px_h) * printable_h_in`, leaving the
shortfall blank at the bottom of the page. -/
theorem vertical_anchoring (row rows : ℤ) (margin_y sheet_px_h h letter_h : ℚ)
    (hs : sheet_px_h ≠ 0) :
    (row ≠ rows - 1 →
      placed_y row rows margin_y (segment_offset sheet_px_h h letter_h) = margin_y * 72)
    ∧ (row = rows - 1 →
      placed_y row rows margin_y (segment_offset sheet_px_h h letter_h)
        = (margin_y + (1 - h / sheet_px_h) * letter_h) * 72) := by
  constructor
  · intro hne
    rw [placed_y, if_neg hne]
  · intro he
    rw [placed_y, if_pos he, segment_offset]
    have hfrac : (sheet_px_h - h) / sheet_px_h = 1 - h / sheet_px_h := by
      field_simp
    rw [hfrac]

/-- C9 witness: 3-row grid, sheet 3150 px tall, last segment 2700 px tall,
printable height 10.5in, margin 0.375in. -/
theorem vertical_anchoring_witness :
    placed_y 1 3 (3/8) (segment_offset 3150 2700 (21/2)) = (3/8) * 72
    ∧ placed_y 2 3 (3/8) (segment_offset 3150 2700 (21/2))
        = ((3/8) + (1 - 2700 / 3150) * (21/2)) * 72 :=
  ⟨(vertical_anchoring 1 3 (3/8) 3150 2700 (21/2) (by norm_num)).1 (by decide),
   (vertical_anchoring 2 3 (3/8) 3150 2700 (21/2) (by norm_num)).2 rfl⟩

/-- Evaluation helper: 10in x 21in poster at 100 dpi, no overlap, margins
3in x 0.25in — the non-rotated candidate grid. -/
theorem plan_in_10_21 :
    calculate_pages_needed 10 21 100 0 3 (1/4) = some (4, 2) := by
  norm_num [calculate_pages_needed, pyInt, calculate_pages_needed_px, ceil_via_floor,
    Rat.num_ofNat, Rat.den_ofNat, Int.tdiv_one]

/-- Evaluation helper: the rotated candidate the optimizer computes: poster
dimensions and margins both swapped. -/
theorem plan_in_21_10_swapped_margins :
    calculate_pages_needed 21 10 100 0 (1/4) 3 = some (3, 2) := by
  norm_num [calculate_pages_needed, pyInt, calculate_pages_needed_px, ceil_via_floor,
    Rat.num_ofNat, Rat.den_ofNat, Int.tdiv_one]

/-- Evaluation helper: the grid the rendering pass actually computes after a
rotation: poster dimensions swapped but margins NOT swapped. -/
theorem plan_in_21_10_original_margins :
    calculate_pages_needed 21 10 100 0 3 (1/4) = some (9, 1) := by
  norm_num [calculate_pages_needed, pyInt, calculate_pages_needed_px, ceil_via_floor,
    Rat.num_ofNat, Rat.den_ofNat, Int.tdiv_one]

/-- C10 (code bug): for a 10in x 21in poster at 100 dpi, no overlap, margins
3in x 0.25in, the optimizer selects rotation because its rotated candidate
(margins swapped) is a 3x2 = 6 page grid beating 4x2 = 8, but the rendering
pass replans with the margins unswapped and emits a 9x1 = 9 page grid — a
different grid than the one that justified the rotation, and more pages than
the non-rotated orientation needed. -/
theorem rotation_render_mismatch :
    calculate_pages_needed 10 21 100 0 3 (1/4) = some (4, 2)
    ∧ calculate_pages_needed 21 10 100 0 (1/4) 3 = some (3, 2)
    ∧ optimize_orientation false 10 21 100 0 3 (1/4) = some ((21, 10), true)
    ∧ rendering_grid false 10 21 100 0 3 (1/4) = some (9, 1)
    ∧ ((9 : ℤ) * 1 ≠ 3 * 2) ∧ ((4 : ℤ) * 2 < 9 * 1) := by
  have hopt : optimize_orientation false 10 21 100 0 3 (1/4) = some ((21, 10), true) := by
    simp only [optimize_orientation, Bool.false_eq_true, if_false,
      plan_in_10_21, plan_in_21_10_swapped_margins]
    norm_num
  refine ⟨plan_in_10_21, plan_in_21_10_swapped_margins, hopt, ?_, by decide, by decide⟩
  simp only [rendering_grid, hopt]
  exact plan_in_21_10_original_margins

end Poster
